import Mathlib

/-!
# Verification of the DemoWallet module (src/wallet.js)

A shallow embedding of the wallet/membership helper module. The module keeps
an in-memory optimistic cache (`__walletCache` with fields `balance`,
`reserved`, `totalIncome`) and talks to a remote ledger (Supabase REST) for
reads and fire-and-forget writes.

Modelling conventions:

* JavaScript numbers are modelled by `JSNum`: an exact rational together with
  the special values NaN, positive infinity and negative infinity. The
  comparison and arithmetic operators follow the JavaScript semantics on
  these special values (any comparison involving NaN is false, NaN is
  absorbing for arithmetic, infinities combine as in IEEE arithmetic).
* The current identity (`localStorage.getItem("currentUserId") || null`) is
  passed in as an `Option String` parameter: `none` models the absent /
  not-authenticated state.
* Network effects are made explicit: each operation returns, alongside its
  result, the list of remote calls it issues (`RemoteCall`). The outcome of
  a fetch that the code awaits is passed in as a parameter (`Fetch` for the
  typed reads, `NetOutcome` for reads whose success body is derived from a
  modelled remote table, `WriteResp` for the explicit write endpoints).
  Fire-and-forget writes (their promise result is never consumed by the
  code) appear only in the emitted call list, so by construction nothing in
  the returned state depends on their success or failure.
* A row field that the code runs through `parseFloat` is modelled directly
  by the `JSNum` that `parseFloat` produced; `JSNum.nan` covers both a
  missing field and a non-numeric one.
* An operation whose JavaScript body can reject (an awaited `fetch` outside
  any try/catch) returns an `Except`; an operation that catches everything
  is a total function into its result type.
-/

/-- Model of a JavaScript number: a finite value is an exact rational;
NaN and the two infinities are explicit constructors. -/
inductive JSNum where
  | fin (q : ℚ)
  | posInf
  | negInf
  | nan
deriving DecidableEq

namespace JSNum

/-- JavaScript `isFinite`. -/
def isFinite : JSNum → Bool
  | fin _ => true
  | _ => false

/-- JavaScript `isNaN` restricted to numbers. -/
def isNaNb : JSNum → Bool
  | nan => true
  | _ => false

/-- JavaScript falsiness of a number: `0` and `NaN` are falsy
(the `!amt` test in the source). -/
def falsy : JSNum → Bool
  | fin q => decide (q = 0)
  | nan => true
  | _ => false

/-- JavaScript `a < b` on numbers: every comparison involving NaN is false. -/
def lt : JSNum → JSNum → Bool
  | fin a, fin b => decide (a < b)
  | fin _, posInf => true
  | negInf, fin _ => true
  | negInf, posInf => true
  | _, _ => false

/-- JavaScript `a <= b` on numbers: every comparison involving NaN is false. -/
def le : JSNum → JSNum → Bool
  | fin a, fin b => decide (a ≤ b)
  | fin _, posInf => true
  | negInf, fin _ => true
  | negInf, posInf => true
  | posInf, posInf => true
  | negInf, negInf => true
  | _, _ => false

/-- JavaScript `a <= 0` (the non-positivity test in the source). -/
def leZero : JSNum → Bool
  | fin q => decide (q ≤ 0)
  | negInf => true
  | _ => false

/-- JavaScript unary minus. -/
def neg : JSNum → JSNum
  | fin q => fin (-q)
  | posInf => negInf
  | negInf => posInf
  | nan => nan

/-- JavaScript `+` on numbers. -/
def add : JSNum → JSNum → JSNum
  | fin a, fin b => fin (a + b)
  | nan, _ => nan
  | _, nan => nan
  | posInf, negInf => nan
  | negInf, posInf => nan
  | posInf, _ => posInf
  | _, posInf => posInf
  | negInf, _ => negInf
  | _, negInf => negInf

/-- JavaScript `-` on numbers. -/
def sub (a b : JSNum) : JSNum := a.add b.neg

/-- JavaScript `*` on numbers. -/
def mul : JSNum → JSNum → JSNum
  | fin a, fin b => fin (a * b)
  | nan, _ => nan
  | _, nan => nan
  | posInf, posInf => posInf
  | posInf, negInf => negInf
  | negInf, posInf => negInf
  | negInf, negInf => posInf
  | posInf, fin b => if 0 < b then posInf else if b < 0 then negInf else nan
  | fin a, posInf => if 0 < a then posInf else if a < 0 then negInf else nan
  | negInf, fin b => if 0 < b then negInf else if b < 0 then posInf else nan
  | fin a, negInf => if 0 < a then negInf else if a < 0 then posInf else nan

end JSNum

/-- JavaScript `v || d` for an optional string value: `undefined`/`null`
and the empty string are falsy and fall through to the default. -/
def jsOrStr (v : Option String) (d : String) : String :=
  match v with
  | none => d
  | some s => if s = "" then d else s

/-- The guard `!amt || !isFinite(amt) || amt <= 0` shared by `withdraw`,
`recordDeposit` and (as the defaulting test) `addIncome`. -/
def invalidAmount (a : JSNum) : Bool :=
  a.falsy || !a.isFinite || a.leZero

/-- The in-memory cache `__walletCache`. -/
structure WalletCache where
  balance : JSNum
  reserved : JSNum
  totalIncome : JSNum
deriving DecidableEq

/-- A `wallet_balances` row as seen after `parseFloat` was applied to both
selected columns: `JSNum.nan` models a missing or non-numeric field. -/
structure WalletRow where
  usdt_balance : JSNum
  usdt_reserved : JSNum
deriving DecidableEq

/-- A `user_state` row: `current_level` is `none` when the column is
missing; each flag field holds the truthiness (`!!field`) of the raw
column value. -/
structure StateRow where
  current_level : Option String
  is_activated : Bool
  is_funded : Bool
  is_locked : Bool
deriving DecidableEq

/-- An `invite_edges` row of the remote referral table. -/
structure EdgeRow where
  ancestor_id : String
  descendant_id : String
  depth : Int
deriving DecidableEq

/-- One member entry produced by `getTeamSummary`. -/
structure Member where
  id : String
  depth : Int
deriving DecidableEq

/-- Result shape of `getTeamSummary`. -/
structure TeamSummary where
  members : List Member
deriving DecidableEq

/-- A `user_payout_addresses` row. -/
structure PayoutRow where
  user_id : String
  currency : String
  network : String
  address : String
  is_locked : Bool
  locked_at : Option String
deriving DecidableEq

/-- Payload of the `user_payout_addresses` insert. -/
structure PayoutInsert where
  user_id : String
  currency : String
  network : String
  address : String
deriving DecidableEq

/-- Payload of a `withdraw_requests` insert (also the returned row shape). -/
structure WithdrawRequestRec where
  user_id : String
  currency : String
  network : String
  to_address : String
  amount : JSNum
  fee : JSNum
  address : String
deriving DecidableEq

/-- Payload of the `deposit_ledger` insert. -/
structure DepositInsert where
  user_id : String
  provider : String
  payment_id : String
  currency : String
  network : String
  amount : JSNum
  status : String
deriving DecidableEq

/-- A remote call issued by the module, with the data it carries. -/
inductive RemoteCall where
  | selectWallet (userId : String)
  | selectUserState (userId : String)
  | selectEdges (userId : String)
  | selectPayoutAddresses (userId : String)
  | patchBalance (userId : String) (newBalance : JSNum)
  | insertWithdrawReq (req : WithdrawRequestRec)
  | insertPayoutAddress (row : PayoutInsert)
  | insertDeposit (row : DepositInsert)
deriving DecidableEq

/-- Outcome of an awaited read whose body the model passes in directly.
`ok none` models a success response whose JSON body is not an array
(the `Array.isArray` guard in the source). A rejected fetch, or a body
whose JSON parsing throws, is `netError`. -/
inductive Fetch (α : Type) where
  | netError
  | httpError
  | ok (body : Option α)
deriving DecidableEq

/-- Outcome of a read whose success body is computed from a modelled
remote table (the gateway applies the filters of the request URL). -/
inductive NetOutcome where
  | netError
  | httpError
  | okNonArray
  | okArray
deriving DecidableEq

/-- Outcome of an explicit write endpoint: a non-success response carries
the text body the code reads (`none` when reading the body itself threw). -/
inductive WriteResp (α : Type) where
  | netError
  | httpError (body : Option String)
  | ok (body : Option α)
deriving DecidableEq

/-- `refreshWallet` (src/wallet.js lines 47 to 69): no identity means no
remote call and no change; otherwise one select is issued; every failure is
swallowed by the try/catch, and on a successful row each cached field is
overwritten only when its `parseFloat` result is not NaN. -/
def refreshWallet (userId : Option String) (cache : WalletCache)
    (resp : Fetch (List WalletRow)) : WalletCache × List RemoteCall :=
  match userId with
  | none => (cache, [])
  | some uid =>
    let calls := [RemoteCall.selectWallet uid]
    match resp with
    | .netError => (cache, calls)
    | .httpError => (cache, calls)
    | .ok none => (cache, calls)
    | .ok (some rows) =>
      match rows with
      | [] => (cache, calls)
      | row :: _ =>
        let c1 := if row.usdt_balance.isNaNb then cache
                  else { cache with balance := row.usdt_balance }
        let c2 := if row.usdt_reserved.isNaNb then c1
                  else { c1 with reserved := row.usdt_reserved }
        (c2, calls)

/-- `getWalletSync` (lines 82 to 88): a by-value snapshot of the cache. -/
def getWalletSync (c : WalletCache) : WalletCache :=
  { balance := c.balance, reserved := c.reserved, totalIncome := c.totalIncome }

/-- `getWalletAsync` (lines 97 to 100): refresh, then return the snapshot
(first component), the new cache and the calls issued. -/
def getWalletAsync (userId : Option String) (cache : WalletCache)
    (resp : Fetch (List WalletRow)) :
    WalletCache × WalletCache × List RemoteCall :=
  let r := refreshWallet userId cache resp
  (getWalletSync r.1, r.1, r.2)

/-- Result of a successful `withdraw` (lines 394): the post-deduction
balance and the unchanged total income. -/
structure WithdrawResult where
  balance : JSNum
  totalIncome : JSNum
deriving DecidableEq

/-- `withdraw` (lines 358 to 395). The guard rejects falsy, non-finite and
non-positive amounts, then insufficient balance, both with a null result,
no mutation and no remote call. Otherwise the cached balance is reduced by
the amount (the fee is computed but not deducted locally), and only when an
identity is present are the balance patch and the withdraw-request insert
(fee = amount times 0.05, network trc20, empty address) fired. -/
def withdraw (userId : Option String) (cache : WalletCache) (amount : JSNum) :
    Option WithdrawResult × WalletCache × List RemoteCall :=
  if invalidAmount amount then (none, cache, [])
  else
    let fee := amount.mul (JSNum.fin (5 / 100))
    if JSNum.lt cache.balance amount then (none, cache, [])
    else
      let newCache := { cache with balance := cache.balance.sub amount }
      let calls :=
        match userId with
        | none => []
        | some uid =>
          [RemoteCall.patchBalance uid newCache.balance,
           RemoteCall.insertWithdrawReq
             { user_id := uid, currency := "usdt", network := "trc20",
               to_address := "", amount := amount, fee := fee, address := "" }]
      (some { balance := newCache.balance, totalIncome := newCache.totalIncome },
       newCache, calls)

/-- `recordDeposit` (lines 288 to 304): invalid amounts are a no-op; a valid
amount increments the cached balance immediately, and the PATCH carrying the
new absolute balance is fired only when an identity is present. The promise
of that PATCH is never consumed, so the returned cache does not depend on
its outcome. -/
def recordDeposit (userId : Option String) (cache : WalletCache)
    (amount : JSNum) : WalletCache × List RemoteCall :=
  if invalidAmount amount then (cache, [])
  else
    let newCache := { cache with balance := cache.balance.add amount }
    let calls :=
      match userId with
      | none => []
      | some uid => [RemoteCall.patchBalance uid newCache.balance]
    (newCache, calls)

/-- `addIncome` (lines 342 to 347): a falsy, non-finite or non-positive
argument defaults to 1; the increment lands on `totalIncome` only. The
localStorage write is purely local and is not part of the remote-call
model. -/
def addIncome (cache : WalletCache) (n : JSNum) : WalletCache :=
  let inc := if invalidAmount n then JSNum.fin 1 else n
  { cache with totalIncome := cache.totalIncome.add inc }

/-- The gateway select behind `getTeamSummary` (lines 173 to 176): the
request URL carries the filters `ancestor_id=eq.userId` and `depth=lt.4`,
which the gateway contract applies to the remote `invite_edges` table. -/
def selectInviteEdges (db : List EdgeRow) (uid : String) : List EdgeRow :=
  db.filter (fun e => e.ancestor_id == uid && decide (e.depth < 4))

/-- `getTeamSummary` (lines 169 to 186): no identity means an empty member
list and no remote call. With an identity, one select is issued; a non-ok
response or a non-array body yields an empty list, a rejected fetch
propagates (the awaited fetch is not inside a try/catch), and a successful
array is mapped to `{id, depth}` entries. -/
def getTeamSummary (userId : Option String) (db : List EdgeRow)
    (outcome : NetOutcome) : Except Unit TeamSummary × List RemoteCall :=
  match userId with
  | none => (Except.ok { members := [] }, [])
  | some uid =>
    let calls := [RemoteCall.selectEdges uid]
    match outcome with
    | .netError => (Except.error (), calls)
    | .httpError => (Except.ok { members := [] }, calls)
    | .okNonArray => (Except.ok { members := [] }, calls)
    | .okArray =>
      (Except.ok
        { members := (selectInviteEdges db uid).map
            (fun r => { id := r.descendant_id, depth := r.depth }) }, calls)

/-- The member list of a `getTeamSummary` result, empty when it rejected. -/
def membersOf (r : Except Unit TeamSummary) : List Member :=
  match r with
  | .ok t => t.members
  | .error _ => []

/-- `listPayoutAddresses` (lines 196 to 207): no identity means an empty
list and no remote call; a non-ok response or non-array body yields an
empty list; a rejected fetch propagates; success returns the rows of the
identity verbatim. -/
def listPayoutAddresses (userId : Option String) (db : List PayoutRow)
    (outcome : NetOutcome) : Except Unit (List PayoutRow) × List RemoteCall :=
  match userId with
  | none => (Except.ok [], [])
  | some uid =>
    let calls := [RemoteCall.selectPayoutAddresses uid]
    match outcome with
    | .netError => (Except.error (), calls)
    | .httpError => (Except.ok [], calls)
    | .okNonArray => (Except.ok [], calls)
    | .okArray => (Except.ok (db.filter (fun r => r.user_id == uid)), calls)

/-- One entry of the static level-requirement table. -/
structure TierRule where
  minBalance : ℚ
  minUsers : Nat
deriving DecidableEq

/-- The static `rulesByLevel` table (lines 135 to 142). -/
def rulesByLevel : List (String × TierRule) :=
  [("V1", { minBalance := 50, minUsers := 0 }),
   ("V2", { minBalance := 500, minUsers := 5 }),
   ("V3", { minBalance := 3000, minUsers := 10 }),
   ("V4", { minBalance := 10000, minUsers := 30 }),
   ("V5", { minBalance := 30000, minUsers := 50 }),
   ("V6", { minBalance := 100000, minUsers := 75 })]

/-- The fixed level ordering `order` (line 144). -/
def levelOrder : List String := ["V0", "V1", "V2", "V3", "V4", "V5", "V6"]

/-- JavaScript `Array.prototype.indexOf`: the index of the first match, or
minus one when the element does not occur. -/
def jsIndexOf (l : List String) (s : String) : Int :=
  match l with
  | [] => -1
  | x :: xs =>
    if x = s then 0
    else
      let r := jsIndexOf xs s
      if r = -1 then -1 else r + 1

/-- The next-level computation of `getVipInfo` (lines 144 to 147): the raw
`current_level` column is first coerced by `|| "V0"` (so a missing column or
the empty string becomes `"V0"`), the coerced value is looked up in
`levelOrder`, and the successor is returned when the index is at least 0 and
strictly below the last position; otherwise null. -/
def nextLevelOf (currentLevel : Option String) : Option String :=
  let cur := jsOrStr currentLevel "V0"
  let idx := jsIndexOf levelOrder cur
  if 0 ≤ idx ∧ idx < (levelOrder.length : Int) - 1 then
    levelOrder.get? (idx + 1).toNat
  else none

/-- The snapshot returned by `getVipInfo`. `rulesByLevel` is a literal
association list; the empty list models the `{}` of the identity-absent
default. -/
structure VipInfo where
  currentLevel : String
  nextLevel : Option String
  isActivated : Bool
  isFunded : Bool
  isLocked : Bool
  balance : JSNum
  effectiveUsers : Nat
  rulesByLevel : List (String × TierRule)
deriving DecidableEq

/-- `getVipInfo` (lines 112 to 158). No identity: the fixed default
snapshot, no remote call, cache untouched. Otherwise: the `user_state`
select is issued (a rejected fetch propagates; a non-ok response or non-array
body degrades to the empty row), then `getWalletAsync` refreshes the cache,
then `getTeamSummary` runs (its rejection propagates); the snapshot combines
the state row, the refreshed balance, the count of members with truthy depth
at least 1, the next level and the static rule table. -/
def getVipInfo (userId : Option String) (cache : WalletCache)
    (stateResp : Fetch (List StateRow))
    (walletResp : Fetch (List WalletRow))
    (edgeDb : List EdgeRow) (edgeOutcome : NetOutcome) :
    Except Unit VipInfo × WalletCache × List RemoteCall :=
  match userId with
  | none =>
    (Except.ok
      { currentLevel := "V0", nextLevel := none, isActivated := false,
        isFunded := false, isLocked := false, balance := JSNum.fin 0,
        effectiveUsers := 0, rulesByLevel := [] }, cache, [])
  | some uid =>
    match stateResp with
    | .netError => (Except.error (), cache, [RemoteCall.selectUserState uid])
    | sr =>
      let stateRows : List StateRow :=
        match sr with
        | .ok (some rows) => rows
        | _ => []
      let state : StateRow := stateRows.headD
        { current_level := none, is_activated := false,
          is_funded := false, is_locked := false }
      let wres := refreshWallet (some uid) cache walletResp
      let balanceObj := getWalletSync wres.1
      match getTeamSummary (some uid) edgeDb edgeOutcome with
      | (Except.error _, tCalls) =>
        (Except.error (), wres.1,
         [RemoteCall.selectUserState uid] ++ wres.2 ++ tCalls)
      | (Except.ok team, tCalls) =>
        let effUsers :=
          (team.members.filter
            (fun m => m.depth != 0 && decide (1 ≤ m.depth))).length
        (Except.ok
          { currentLevel := jsOrStr state.current_level "V0",
            nextLevel := nextLevelOf state.current_level,
            isActivated := state.is_activated,
            isFunded := state.is_funded,
            isLocked := state.is_locked,
            balance := balanceObj.balance,
            effectiveUsers := effUsers,
            rulesByLevel := rulesByLevel },
         wres.1, [RemoteCall.selectUserState uid] ++ wres.2 ++ tCalls)

/-- `addPayoutAddress` (lines 219 to 241): no identity throws the
"Not logged in" error before any remote call; otherwise the lowercased
payload is inserted; a non-success response throws the response body (or
the generic message when the body is absent or empty); success returns the
first created row, or null when the body is empty or not an array. -/
def addPayoutAddress (userId : Option String)
    (currency network address : Option String)
    (resp : WriteResp (List PayoutRow)) :
    Except String (Option PayoutRow) × List RemoteCall :=
  match userId with
  | none => (Except.error "Not logged in", [])
  | some uid =>
    let payload : PayoutInsert :=
      { user_id := uid,
        currency := (jsOrStr currency "").toLower,
        network := (jsOrStr network "").toLower,
        address := jsOrStr address "" }
    let calls := [RemoteCall.insertPayoutAddress payload]
    match resp with
    | .netError => (Except.error "network failure", calls)
    | .httpError body =>
      (Except.error (jsOrStr body "Failed to add address"), calls)
    | .ok none => (Except.ok none, calls)
    | .ok (some rows) => (Except.ok rows.head?, calls)

/-- Options record of `requestWithdraw`. -/
structure WithdrawOpts where
  currency : Option String
  network : Option String
  address : Option String
  amount : JSNum
  fee : Option JSNum
deriving DecidableEq

/-- `requestWithdraw` (lines 252 to 277): no identity throws "Not logged in"
before any remote call; the payload lowercases currency and network, copies
the address into both address fields, and takes the fee from the caller or
defaults it to 0; a non-success response throws the body (or the generic
message); success returns the first created row or null. -/
def requestWithdraw (userId : Option String) (opts : WithdrawOpts)
    (resp : WriteResp (List WithdrawRequestRec)) :
    Except String (Option WithdrawRequestRec) × List RemoteCall :=
  match userId with
  | none => (Except.error "Not logged in", [])
  | some uid =>
    let payload : WithdrawRequestRec :=
      { user_id := uid,
        currency := (jsOrStr opts.currency "").toLower,
        network := (jsOrStr opts.network "").toLower,
        to_address := jsOrStr opts.address "",
        amount := opts.amount,
        fee := opts.fee.getD (JSNum.fin 0),
        address := jsOrStr opts.address "" }
    let calls := [RemoteCall.insertWithdrawReq payload]
    match resp with
    | .netError => (Except.error "network failure", calls)
    | .httpError body =>
      (Except.error (jsOrStr body "Withdrawal failed"), calls)
    | .ok none => (Except.ok none, calls)
    | .ok (some rows) => (Except.ok rows.head?, calls)

/-- `submitDepositTx` (lines 315 to 333): with no identity or a falsy hash,
nothing happens; otherwise one fire-and-forget insert into `deposit_ledger`
is emitted with provider manual, amount 0 and status confirmed. -/
def submitDepositTx (userId : Option String) (txHash : Option String)
    (network currency : Option String) : List RemoteCall :=
  match userId with
  | none => []
  | some uid =>
    if jsOrStr txHash "" = "" then []
    else
      [RemoteCall.insertDeposit
        { user_id := uid, provider := "manual",
          payment_id := jsOrStr txHash "",
          currency := (jsOrStr currency "usdt").toLower,
          network := (jsOrStr network "bep20").toLower,
          amount := JSNum.fin 0, status := "confirmed" }]

/-- `getUser` (lines 403 to 411): a purely local read of the stored
identity and phone; by construction it issues no remote call and does not
touch the cache. -/
def getUser (uid phone : Option String) : Option String × Option String :=
  (uid, phone)

/-- Whether an `Except` result is a success. -/
def exceptIsOk {ε α : Type} (r : Except ε α) : Bool :=
  match r with
  | .ok _ => true
  | .error _ => false

/-- C1: for every positive finite amount with cached balance at least the
amount, `withdraw` returns the snapshot with balance reduced by exactly the
amount (the fee is not deducted locally), and the withdraw-request record
sent to the remote side carries fee exactly 0.05 times the amount. -/
theorem withdraw_success (uid : String) (cache : WalletCache) (q : ℚ)
    (hpos : 0 < q) (hge : JSNum.le (JSNum.fin q) cache.balance = true) :
    withdraw (some uid) cache (JSNum.fin q) =
      (some { balance := cache.balance.sub (JSNum.fin q),
              totalIncome := cache.totalIncome },
       { cache with balance := cache.balance.sub (JSNum.fin q) },
       [RemoteCall.patchBalance uid (cache.balance.sub (JSNum.fin q)),
        RemoteCall.insertWithdrawReq
          { user_id := uid, currency := "usdt", network := "trc20",
            to_address := "", amount := JSNum.fin q,
            fee := JSNum.fin (q * (5 / 100)), address := "" }]) := by
  have hinv : invalidAmount (JSNum.fin q) = false := by
    simp [invalidAmount, JSNum.falsy, JSNum.isFinite, JSNum.leZero,
      hpos.ne', not_le.mpr hpos]
  have hlt : JSNum.lt cache.balance (JSNum.fin q) = false := by
    cases hb : cache.balance with
    | fin b =>
      rw [hb] at hge
      simp only [JSNum.le, decide_eq_true_eq] at hge
      simp [JSNum.lt, not_lt.mpr hge]
    | posInf => simp [JSNum.lt]
    | negInf => rw [hb] at hge; simp [JSNum.le] at hge
    | nan => rw [hb] at hge; simp [JSNum.le] at hge
  simp [withdraw, hinv, hlt, JSNum.mul]

/-- Witness for C1: balance 100, amount 20, fee 1, snapshot balance 80. -/
theorem withdraw_success_witness :
    (0 : ℚ) < 20
    ∧ JSNum.le (JSNum.fin 20) (JSNum.fin 100) = true
    ∧ withdraw (some "u")
        { balance := JSNum.fin 100, reserved := JSNum.fin 7,
          totalIncome := JSNum.fin 3 } (JSNum.fin 20) =
      (some { balance := JSNum.fin 80, totalIncome := JSNum.fin 3 },
       { balance := JSNum.fin 80, reserved := JSNum.fin 7,
         totalIncome := JSNum.fin 3 },
       [RemoteCall.patchBalance "u" (JSNum.fin 80),
        RemoteCall.insertWithdrawReq
          { user_id := "u", currency := "usdt", network := "trc20",
            to_address := "", amount := JSNum.fin 20,
            fee := JSNum.fin 1, address := "" }]) := by
  refine ⟨by norm_num, by decide, ?_⟩
  have h := withdraw_success "u"
    { balance := JSNum.fin 100, reserved := JSNum.fin 7,
      totalIncome := JSNum.fin 3 } 20 (by norm_num) (by decide)
  refine h.trans ?_
  norm_num [JSNum.sub, JSNum.neg, JSNum.add]

/-- C2: a falsy, non-finite or non-positive amount, or an amount exceeding
the cached balance, makes `withdraw` return null, leave the cache unchanged
and issue no remote call. -/
theorem withdraw_reject (userId : Option String) (cache : WalletCache)
    (a : JSNum)
    (h : invalidAmount a = true ∨ JSNum.lt cache.balance a = true) :
    withdraw userId cache a = (none, cache, []) := by
  rcases h with h | h
  · simp [withdraw, h]
  · by_cases hinv : invalidAmount a = true
    · simp [withdraw, hinv]
    · simp [withdraw, hinv, h]

/-- Witness for C2: a negative amount is rejected without mutation. -/
theorem withdraw_reject_witness :
    invalidAmount (JSNum.fin (-1)) = true
    ∧ withdraw none
        { balance := JSNum.fin 0, reserved := JSNum.fin 0,
          totalIncome := JSNum.fin 0 } (JSNum.fin (-1)) =
      (none,
       { balance := JSNum.fin 0, reserved := JSNum.fin 0,
         totalIncome := JSNum.fin 0 }, []) :=
  ⟨by decide, withdraw_reject none _ _ (Or.inl (by decide))⟩

/-- C5: `recordDeposit` on an invalid amount is a no-op with no remote
call; on a positive finite amount the cached balance is incremented
immediately, and the emitted PATCH (whose outcome the code never reads)
carries the new absolute balance; the cache update is the same whether or
not an identity is present. -/
theorem recordDeposit_spec (userId : Option String) (cache : WalletCache)
    (a : JSNum) (q : ℚ) (hpos : 0 < q) :
    (invalidAmount a = true → recordDeposit userId cache a = (cache, []))
    ∧ recordDeposit userId cache (JSNum.fin q)
        = ({ cache with balance := cache.balance.add (JSNum.fin q) },
           match userId with
           | none => []
           | some uid =>
             [RemoteCall.patchBalance uid (cache.balance.add (JSNum.fin q))]) := by
  have hinv : invalidAmount (JSNum.fin q) = false := by
    simp [invalidAmount, JSNum.falsy, JSNum.isFinite, JSNum.leZero,
      hpos.ne', not_le.mpr hpos]
  constructor
  · intro h
    simp [recordDeposit, h]
  · cases userId <;> simp [recordDeposit, hinv]

/-- Witness for C5: NaN is a no-op; depositing 5 onto balance 0 gives 5. -/
theorem recordDeposit_spec_witness :
    (0 : ℚ) < 5
    ∧ invalidAmount JSNum.nan = true
    ∧ recordDeposit (some "u")
        { balance := JSNum.fin 0, reserved := JSNum.fin 2,
          totalIncome := JSNum.fin 1 } JSNum.nan
        = ({ balance := JSNum.fin 0, reserved := JSNum.fin 2,
             totalIncome := JSNum.fin 1 }, [])
    ∧ recordDeposit (some "u")
        { balance := JSNum.fin 0, reserved := JSNum.fin 2,
          totalIncome := JSNum.fin 1 } (JSNum.fin 5)
        = ({ balance := JSNum.fin 5, reserved := JSNum.fin 2,
             totalIncome := JSNum.fin 1 },
           [RemoteCall.patchBalance "u" (JSNum.fin 5)]) := by
  refine ⟨by norm_num, by decide, ?_, ?_⟩
  · exact (recordDeposit_spec (some "u")
      { balance := JSNum.fin 0, reserved := JSNum.fin 2,
        totalIncome := JSNum.fin 1 } JSNum.nan 5 (by norm_num)).1 (by decide)
  · refine ((recordDeposit_spec (some "u")
      { balance := JSNum.fin 0, reserved := JSNum.fin 2,
        totalIncome := JSNum.fin 1 } JSNum.nan 5 (by norm_num)).2).trans ?_
    norm_num [JSNum.add]

/-- C6: with an identity present, `refreshWallet` leaves the whole cache
unchanged on a rejected fetch, a non-ok response, a non-array body or an
empty row set (and surfaces no error since it is a total function); on a
row it overwrites `balance` and `reserved` exactly when the corresponding
parsed field is not NaN, leaving a NaN (missing or non-numeric) field
untouched. -/
theorem refreshWallet_spec (uid : String) (cache : WalletCache)
    (row : WalletRow) (rest : List WalletRow) :
    refreshWallet (some uid) cache .netError
        = (cache, [RemoteCall.selectWallet uid])
    ∧ refreshWallet (some uid) cache .httpError
        = (cache, [RemoteCall.selectWallet uid])
    ∧ refreshWallet (some uid) cache (.ok none)
        = (cache, [RemoteCall.selectWallet uid])
    ∧ refreshWallet (some uid) cache (.ok (some []))
        = (cache, [RemoteCall.selectWallet uid])
    ∧ refreshWallet (some uid) cache (.ok (some (row :: rest)))
        = ({ cache with
              balance := if row.usdt_balance.isNaNb then cache.balance
                         else row.usdt_balance,
              reserved := if row.usdt_reserved.isNaNb then cache.reserved
                          else row.usdt_reserved },
           [RemoteCall.selectWallet uid]) := by
  refine ⟨rfl, rfl, rfl, rfl, ?_⟩
  by_cases h1 : row.usdt_balance.isNaNb <;>
    by_cases h2 : row.usdt_reserved.isNaNb <;>
      simp [refreshWallet, h1, h2]

/-- C8: with the identity absent, `getVipInfo` returns exactly the fixed
default snapshot (level V0, no next level, all flags false, balance 0,
zero effective users, empty rule table), makes no remote call and leaves
the cache unchanged. -/
theorem getVipInfo_absent (cache : WalletCache)
    (stateResp : Fetch (List StateRow)) (walletResp : Fetch (List WalletRow))
    (db : List EdgeRow) (eo : NetOutcome) :
    getVipInfo none cache stateResp walletResp db eo
      = (Except.ok
          { currentLevel := "V0", nextLevel := none, isActivated := false,
            isFunded := false, isLocked := false, balance := JSNum.fin 0,
            effectiveUsers := 0, rulesByLevel := [] }, cache, []) := rfl

/-- C10: frame conditions. `withdraw` and `recordDeposit` never change the
`reserved` or `totalIncome` fields of the cache, and `addIncome` never
changes `balance` or `reserved`. -/
theorem frame_conditions (userId : Option String) (cache : WalletCache)
    (a n : JSNum) :
    ((withdraw userId cache a).2.1.reserved = cache.reserved
      ∧ (withdraw userId cache a).2.1.totalIncome = cache.totalIncome)
    ∧ ((recordDeposit userId cache a).1.reserved = cache.reserved
      ∧ (recordDeposit userId cache a).1.totalIncome = cache.totalIncome)
    ∧ ((addIncome cache n).balance = cache.balance
      ∧ (addIncome cache n).reserved = cache.reserved) := by
  refine ⟨?_, ?_, ⟨rfl, rfl⟩⟩
  · unfold withdraw
    split
    · exact ⟨rfl, rfl⟩
    · dsimp only
      split
      · exact ⟨rfl, rfl⟩
      · exact ⟨rfl, rfl⟩
  · unfold recordDeposit
    split
    · exact ⟨rfl, rfl⟩
    · exact ⟨rfl, rfl⟩

/-- C9: every member list produced by `getTeamSummary` contains only
entries with depth strictly below 4 (the request carries the filter
`depth=lt.4`, which the gateway select applies), and with the identity
absent the member list is empty and no remote call is made. -/
theorem getTeamSummary_spec (uid : String) (db : List EdgeRow)
    (outcome : NetOutcome) :
    (∀ m ∈ membersOf (getTeamSummary (some uid) db outcome).1, m.depth < 4)
    ∧ getTeamSummary none db outcome = (Except.ok { members := [] }, []) := by
  constructor
  · intro m hm
    cases outcome with
    | okArray =>
      simp only [getTeamSummary, membersOf, selectInviteEdges, List.mem_map,
        List.mem_filter, Bool.and_eq_true, beq_iff_eq, decide_eq_true_eq] at hm
      obtain ⟨e, ⟨_, _, hd⟩, rfl⟩ := hm
      exact hd
    | netError => simp [getTeamSummary, membersOf] at hm
    | httpError => simp [getTeamSummary, membersOf] at hm
    | okNonArray => simp [getTeamSummary, membersOf] at hm
  · rfl

/-- Witness for C9: one depth-2 edge of the current identity is returned
and its depth is below 4. -/
theorem getTeamSummary_spec_witness :
    ({ id := "d", depth := 2 } : Member).depth < 4 :=
  (getTeamSummary_spec "u"
    [{ ancestor_id := "u", descendant_id := "d", depth := 2 }]
    NetOutcome.okArray).1 { id := "d", depth := 2 } (by decide)

/-- C7 counterexample: the empty string is a currentLevel value outside
the fixed sequence, yet `getVipInfo` computes nextLevel V1 for it (the
`|| "V0"` coercion), not null. -/
theorem nextLevel_empty_string_counterexample :
    "" ∉ levelOrder
    ∧ Except.map VipInfo.nextLevel
        (getVipInfo (some "u")
          { balance := JSNum.fin 0, reserved := JSNum.fin 0,
            totalIncome := JSNum.fin 0 }
          (.ok (some [{ current_level := some "", is_activated := false,
                        is_funded := false, is_locked := false }]))
          .httpError [] .httpError).1
      = Except.ok (some "V1") := by
  exact ⟨by decide, rfl⟩

/-- C7 (amended): `nextLevelOf` yields the immediate successor for levels
V0 to V5 and null for V6; it yields null for every nonempty currentLevel
string outside the fixed sequence; but a missing currentLevel and the
empty string are coerced to V0 by `|| "V0"` and therefore yield V1. -/
theorem nextLevel_spec (s : String) (hmem : s ∉ levelOrder) (hne : s ≠ "") :
    nextLevelOf (some "V0") = some "V1"
    ∧ nextLevelOf (some "V1") = some "V2"
    ∧ nextLevelOf (some "V2") = some "V3"
    ∧ nextLevelOf (some "V3") = some "V4"
    ∧ nextLevelOf (some "V4") = some "V5"
    ∧ nextLevelOf (some "V5") = some "V6"
    ∧ nextLevelOf (some "V6") = none
    ∧ nextLevelOf none = some "V1"
    ∧ nextLevelOf (some "") = some "V1"
    ∧ nextLevelOf (some s) = none := by
  refine ⟨by decide, by decide, by decide, by decide, by decide, by decide,
    by decide, by decide, by decide, ?_⟩
  simp only [levelOrder, List.mem_cons, List.not_mem_nil, or_false,
    not_or] at hmem
  obtain ⟨h0, h1, h2, h3, h4, h5, h6⟩ := hmem
  simp [nextLevelOf, jsOrStr, jsIndexOf, levelOrder, hne, Ne.symm h0,
    Ne.symm h1, Ne.symm h2, Ne.symm h3, Ne.symm h4, Ne.symm h5, Ne.symm h6]

/-- Witness for C7 (amended): the unrecognized nonempty level X has no
next level. -/
theorem nextLevel_spec_witness :
    "X" ∉ levelOrder ∧ "X" ≠ "" ∧ nextLevelOf (some "X") = none := by
  refine ⟨by decide, by decide, ?_⟩
  exact (nextLevel_spec "X" (by decide) (by decide)).2.2.2.2.2.2.2.2.2

/-- C3 counterexample: with the identity absent, withdrawing 20 from a
cached balance of 100 still mutates the wallet cache (the deduction
happens before the identity is consulted), so the operation is not a
cache-preserving no-op. -/
theorem withdraw_absent_mutates_cache :
    (withdraw none
      { balance := JSNum.fin 100, reserved := JSNum.fin 0,
        totalIncome := JSNum.fin 0 } (JSNum.fin 20)).2.1
      = { balance := JSNum.fin 80, reserved := JSNum.fin 0,
          totalIncome := JSNum.fin 0 }
    ∧ ({ balance := JSNum.fin 80, reserved := JSNum.fin 0,
         totalIncome := JSNum.fin 0 } : WalletCache)
      ≠ { balance := JSNum.fin 100, reserved := JSNum.fin 0,
          totalIncome := JSNum.fin 0 } := by
  constructor
  · norm_num [withdraw, invalidAmount, JSNum.falsy, JSNum.isFinite,
      JSNum.leZero, JSNum.lt, JSNum.sub, JSNum.neg, JSNum.add]
  · decide

/-- C3 (amended): with the identity absent no operation issues any remote
call; the reads return their safe defaults and leave the cache unchanged;
the two explicit writes fail with the unauthenticated error before any
remote call; but `withdraw` and `recordDeposit` still apply their
optimistic local mutation to the cache (only the remote mirroring is
skipped), and `addIncome` never consults the identity at all. -/
theorem absent_identity_spec (cache : WalletCache) (a : JSNum)
    (wResp : Fetch (List WalletRow)) (stateResp : Fetch (List StateRow))
    (db : List EdgeRow) (eo : NetOutcome) (pdb : List PayoutRow)
    (cur net addr txh : Option String) (opts : WithdrawOpts)
    (presp : WriteResp (List PayoutRow))
    (wresp : WriteResp (List WithdrawRequestRec)) :
    refreshWallet none cache wResp = (cache, [])
    ∧ getWalletSync cache = cache
    ∧ getWalletAsync none cache wResp = (cache, cache, [])
    ∧ (getVipInfo none cache stateResp wResp db eo).2 = (cache, [])
    ∧ getTeamSummary none db eo = (Except.ok { members := [] }, [])
    ∧ listPayoutAddresses none pdb eo = (Except.ok [], [])
    ∧ addPayoutAddress none cur net addr presp
        = (Except.error "Not logged in", [])
    ∧ requestWithdraw none opts wresp = (Except.error "Not logged in", [])
    ∧ submitDepositTx none txh net cur = []
    ∧ (recordDeposit none cache a).2 = []
    ∧ (withdraw none cache a).2.2 = [] := by
  refine ⟨rfl, rfl, rfl, rfl, rfl, rfl, rfl, rfl, rfl, ?_, ?_⟩
  · unfold recordDeposit
    split
    · rfl
    · rfl
  · unfold withdraw
    split
    · rfl
    · dsimp only
      split
      · rfl
      · rfl

/-- C4 counterexample: a transport failure makes `getTeamSummary` reject
(the awaited fetch is outside any try/catch) instead of degrading to an
empty member list. -/
theorem getTeamSummary_netError_rejects :
    getTeamSummary (some "u") [] NetOutcome.netError
      = (Except.error (), [RemoteCall.selectEdges "u"]) := rfl

/-- C4 (amended): `refreshWallet` swallows both non-success responses and
transport failures; `getTeamSummary`, `listPayoutAddresses` and the
membership-state lookup inside `getVipInfo` degrade to empty or default
results only on non-success responses, while a network/transport failure
on those three rejects and propagates to the caller. -/
theorem failing_reads_spec (uid : String) (cache : WalletCache)
    (db : List EdgeRow) (pdb : List PayoutRow)
    (wResp : Fetch (List WalletRow)) (eo : NetOutcome) :
    refreshWallet (some uid) cache .netError
        = (cache, [RemoteCall.selectWallet uid])
    ∧ refreshWallet (some uid) cache .httpError
        = (cache, [RemoteCall.selectWallet uid])
    ∧ getTeamSummary (some uid) db .httpError
        = (Except.ok { members := [] }, [RemoteCall.selectEdges uid])
    ∧ getTeamSummary (some uid) db .netError
        = (Except.error (), [RemoteCall.selectEdges uid])
    ∧ listPayoutAddresses (some uid) pdb .httpError
        = (Except.ok [], [RemoteCall.selectPayoutAddresses uid])
    ∧ listPayoutAddresses (some uid) pdb .netError
        = (Except.error (), [RemoteCall.selectPayoutAddresses uid])
    ∧ exceptIsOk (getVipInfo (some uid) cache .httpError wResp db .httpError).1
        = true
    ∧ (getVipInfo (some uid) cache .netError wResp db eo).1
        = Except.error () := by
  exact ⟨rfl, rfl, rfl, rfl, rfl, rfl, rfl, rfl⟩
